import Mathlib

/-!
Shallow embedding of the Zephyr telemetry aggregator (src/src/main.c).

Times are modelled as `Int` (the C code uses `int64_t` milliseconds from
`k_uptime_get`).  `uint32_t` quantities (the frame counter, the uptime
field) are modelled as `Nat` reduced modulo 2^32 exactly where the C code
performs unsigned arithmetic or casts.  C `/` on signed operands truncates
toward zero, so it is modelled with `Int.tdiv`.

The aggregator thread is modelled as a step function on an explicit state:
the C locals that persist across loop iterations (`last_frame_time`,
`uptime_msg`, `sensor_msg`, `avg_buffer`) plus the static global
`frame_counter`.  The environment of one cycle (the clock reads and the
messages drained from each queue, in order) is a `CycleInput`.
-/

/-- Constant TELEMETRY_FRAME_RATE_MS = 200 (main.c line 41). -/
def TELEMETRY_FRAME_RATE_MS : Int := 200

/-- Constant SYNTHETIC_SENSOR_RATE_MS = 50 (main.c line 42). -/
def SYNTHETIC_SENSOR_RATE_MS : Int := 50

/-- Constant UPTIME_RATE_MS = 1000 (main.c line 43). -/
def UPTIME_RATE_MS : Int := 1000

/-- Constant SENSOR_QUEUE_SIZE = 10 (main.c line 45). -/
def SENSOR_QUEUE_SIZE : Nat := 10

/-- Constant UPTIME_QUEUE_SIZE = 2 (main.c line 46). -/
def UPTIME_QUEUE_SIZE : Nat := 2

/-- Constant SENSOR_AVG_BUFFER_SIZE = 20 (main.c line 31). -/
def SENSOR_AVG_BUFFER_SIZE : Nat := 20

/-- Constant TRIGGER_SYNTHETIC_SENSOR = 1 (main.c line 52). -/
def TRIGGER_SYNTHETIC_SENSOR : Nat := 1

/-- Constant TRIGGER_UPTIME = 2 (main.c line 53). -/
def TRIGGER_UPTIME : Nat := 2

/-- Modulus of C unsigned 32-bit arithmetic. -/
def U32_MOD : Nat := 4294967296

/-- Value of a C cast of a signed 64-bit integer to uint32_t. -/
def castU32 (x : Int) : Nat := (x % (U32_MOD : Int)).toNat

/-- struct sensor_data (main.c lines 20-23). -/
structure SensorData where
  timestamp : Int
  sensor_value : Int
deriving DecidableEq

/-- struct uptime_data (main.c lines 25-28).  The uptime field is uint32_t,
modelled as a Nat. -/
structure UptimeData where
  timestamp : Int
  uptime : Nat
deriving DecidableEq

/-- struct telemetry_frame (main.c lines 11-18). -/
structure TelemetryFrame where
  frame_id : Nat
  timestamp : Int
  uptime : Nat
  latest_sensor_value : Int
  sensor_avg_last_200ms : Nat
  degraded : Bool
deriving DecidableEq

/-- struct sensor_avg_buffer (main.c lines 32-37): two parallel arrays of
SENSOR_AVG_BUFFER_SIZE entries plus a write index and an occupancy count. -/
structure SensorAvgBuffer where
  sensor_values : List Int
  timestamps : List Int
  index : Nat
  count : Nat
deriving DecidableEq

/-- is_data_fresh (main.c lines 92-95). -/
def is_data_fresh (data_timestamp current_time timeout_ms : Int) : Bool :=
  decide (current_time - data_timestamp ≤ timeout_ms)

/-- add_sensor_to_avg_buffer (main.c lines 97-106): overwrite the slot at the
write index, advance the index modulo the capacity, saturate the count. -/
def add_sensor_to_avg_buffer (buffer : SensorAvgBuffer) (data : SensorData) :
    SensorAvgBuffer :=
  { sensor_values := buffer.sensor_values.set buffer.index data.sensor_value
    timestamps := buffer.timestamps.set buffer.index data.timestamp
    index := (buffer.index + 1) % SENSOR_AVG_BUFFER_SIZE
    count := if buffer.count < SENSOR_AVG_BUFFER_SIZE then buffer.count + 1
             else buffer.count }

/-- The accumulation loop of calculate_sensor_avg_200ms (main.c lines
114-119): after examining slots 0..n-1 the pair holds the running sum and the
number of slots whose timestamp is at least the cutoff. -/
def avgLoop (buffer : SensorAvgBuffer) (cutoff_time : Int) : Nat → Int × Nat
  | 0 => (0, 0)
  | n + 1 =>
    let acc := avgLoop buffer cutoff_time n
    if buffer.timestamps.getD n 0 ≥ cutoff_time then
      (acc.1 + buffer.sensor_values.getD n 0, acc.2 + 1)
    else acc

/-- calculate_sensor_avg_200ms (main.c lines 108-122).  The C function reads
the clock itself; that read is the parameter `now`.  The C division is
int / int truncating toward zero, then cast to uint32_t. -/
def calculate_sensor_avg_200ms (now : Int) (buffer : SensorAvgBuffer) : Nat :=
  let cutoff_time := now - 200
  let acc := avgLoop buffer cutoff_time buffer.count
  if acc.2 > 0 then castU32 (acc.1.tdiv (acc.2 : Int)) else 0

/-- State of the aggregator thread that persists from one cycle to the next:
the static global frame_counter (main.c line 82, uint32_t starting at 0) and
the locals of telemetry_aggregator_thread_func (main.c lines 201-210).
uptime_msg and sensor_msg are declared without an initializer (main.c lines
207-208), so their value before the first drain is indeterminate. -/
structure AggState where
  frame_counter : Nat
  last_frame_time : Int
  uptime_msg : UptimeData
  sensor_msg : SensorData
  avg_buffer : SensorAvgBuffer
deriving DecidableEq

/-- Environment of one aggregator cycle: the three clock reads of the loop
body (main.c lines 225, 247 and 110) and the messages drained from each
queue, in arrival order (main.c lines 234-242). -/
structure CycleInput where
  wake_time : Int
  uptime_drained : List UptimeData
  sensor_drained : List SensorData
  frame_time : Int
  avg_read_time : Int
deriving DecidableEq

/-- Initial avg_buffer: main.c line 210 zero-initializes the whole struct. -/
def initial_avg_buffer : SensorAvgBuffer :=
  { sensor_values := List.replicate SENSOR_AVG_BUFFER_SIZE 0
    timestamps := List.replicate SENSOR_AVG_BUFFER_SIZE 0
    index := 0
    count := 0 }

/-- Aggregator state on entering the while loop (main.c lines 201-218):
frame_counter is 0, last_frame_time the clock read of line 218, the avg
buffer zeroed, and the two message locals holding arbitrary indeterminate
values passed in as parameters. -/
def initAggState (uptime_init : UptimeData) (sensor_init : SensorData)
    (boot_time : Int) : AggState :=
  { frame_counter := 0
    last_frame_time := boot_time
    uptime_msg := uptime_init
    sensor_msg := sensor_init
    avg_buffer := initial_avg_buffer }

/-- One iteration of the aggregator while loop (main.c lines 220-278),
returning the successor state and the emitted frame. -/
def aggStep (system_start_time : Int) (st : AggState) (inp : CycleInput) :
    AggState × TelemetryFrame :=
  let frame_deadline_met : Bool :=
    !(decide (inp.wake_time - st.last_frame_time > TELEMETRY_FRAME_RATE_MS + 10))
  let uptime_msg : UptimeData := inp.uptime_drained.foldl (fun _ m => m) st.uptime_msg
  let sensor_valid : Bool := !inp.sensor_drained.isEmpty
  let avg_buffer : SensorAvgBuffer :=
    inp.sensor_drained.foldl add_sensor_to_avg_buffer st.avg_buffer
  let sensor_msg : SensorData := inp.sensor_drained.foldl (fun _ m => m) st.sensor_msg
  let frame_id : Nat := (st.frame_counter + 1) % U32_MOD
  let ts : Int := inp.frame_time
  let fresh_uptime : Bool :=
    is_data_fresh uptime_msg.timestamp ts (2 * UPTIME_RATE_MS + 10)
  let uptime : Nat :=
    if fresh_uptime then uptime_msg.uptime
    else castU32 ((ts - system_start_time).tdiv 1000)
  let degraded_u : Bool := if fresh_uptime then false else true
  let fresh_sensor : Bool :=
    sensor_valid && is_data_fresh sensor_msg.timestamp ts (SYNTHETIC_SENSOR_RATE_MS + 10)
  let latest_sensor_value : Int :=
    if fresh_sensor then sensor_msg.sensor_value else -1
  let degraded_s : Bool := if fresh_sensor then degraded_u else true
  let sensor_avg : Nat := calculate_sensor_avg_200ms inp.avg_read_time avg_buffer
  let degraded : Bool := degraded_s || !frame_deadline_met
  ({ frame_counter := frame_id
     last_frame_time := ts
     uptime_msg := uptime_msg
     sensor_msg := sensor_msg
     avg_buffer := avg_buffer },
   { frame_id := frame_id
     timestamp := ts
     uptime := uptime
     latest_sensor_value := latest_sensor_value
     sensor_avg_last_200ms := sensor_avg
     degraded := degraded })

/-- The aggregator run over a list of cycle environments: the list of frames
emitted, in order. -/
def aggRun (system_start_time : Int) (st : AggState) :
    List CycleInput → List TelemetryFrame
  | [] => []
  | inp :: rest =>
    let r := aggStep system_start_time st inp
    r.2 :: aggRun system_start_time r.1 rest

/-- Default frame used to read an element out of an emitted-frame list. -/
def default_frame : TelemetryFrame :=
  { frame_id := 0, timestamp := 0, uptime := 0, latest_sensor_value := 0,
    sensor_avg_last_200ms := 0, degraded := false }

/-- Indices of the buffer slots the averaging loop counts: slots 0..count-1
whose timestamp is at least the cutoff (read time minus 200 ms). -/
def in_window_indices (now : Int) (buffer : SensorAvgBuffer) : List Nat :=
  (List.range buffer.count).filter
    (fun i => decide (buffer.timestamps.getD i 0 ≥ now - 200))

/-- Sensor values of the in-window buffer slots. -/
def in_window_values (now : Int) (buffer : SensorAvgBuffer) : List Int :=
  (in_window_indices now buffer).map (fun i => buffer.sensor_values.getD i 0)

/-- Windowed average as the spec states it (section 4.2 step 5 and section
8): the mean of exactly the ring entries whose timestamp is at least the
read time minus 200 ms, 0 when none qualify.  Stated independently of the
loop for comparison with calculate_sensor_avg_200ms. -/
def windowed_average_spec (now : Int) (buffer : SensorAvgBuffer) : Int :=
  let vs := in_window_values now buffer
  if vs.length > 0 then vs.sum.tdiv (vs.length : Int) else 0

/-- A bounded Zephyr message queue: its stored messages in arrival order and
its capacity (the max_msgs of K_MSGQ_DEFINE, main.c lines 58-60). -/
structure MsgQueue (α : Type) where
  msgs : List α
  max_msgs : Nat
deriving DecidableEq

/-- k_msgq_put with K_NO_WAIT: appends when there is room and returns the
grown queue; returns none (the nonzero error of the C call) when the queue
is full, leaving it unchanged.  A total function: the K_NO_WAIT call never
blocks. -/
def k_msgq_put {α : Type} (q : MsgQueue α) (m : α) : Option (MsgQueue α) :=
  if q.msgs.length < q.max_msgs then some { q with msgs := q.msgs ++ [m] } else none

/-- The two data queues the producer publishes to. -/
structure ProducerQueues where
  sensor_msgq : MsgQueue SensorData
  uptime_msgq : MsgQueue UptimeData
deriving DecidableEq

/-- One iteration of producer_thread_func after a trigger is received
(main.c lines 310-321): one non-blocking put to the matching data queue,
and a warning (the Bool) exactly when the put fails; the sample is then
dropped with no retry.  The sensor sample itself is synthesized from a sine
wave plus random noise (synthetic_sensor_data); being clock- and
random-driven it is a parameter here, the publish path is what is
modelled. -/
def producer_handle (system_start_time now : Int) (sensor_msg : SensorData)
    (trigger_id : Nat) (q : ProducerQueues) : ProducerQueues × Bool :=
  if trigger_id = TRIGGER_SYNTHETIC_SENSOR then
    match k_msgq_put q.sensor_msgq sensor_msg with
    | some sq => ({ q with sensor_msgq := sq }, false)
    | none => (q, true)
  else if trigger_id = TRIGGER_UPTIME then
    let uptime_msg : UptimeData :=
      { timestamp := now, uptime := castU32 ((now - system_start_time).tdiv 1000) }
    match k_msgq_put q.uptime_msgq uptime_msg with
    | some uq => ({ q with uptime_msgq := uq }, false)
    | none => (q, true)
  else (q, false)

/-- synthetic_sensor_work_handler (main.c lines 126-133): one non-blocking
put of the trigger id into the trigger queue, a warning when it is full. -/
def synthetic_sensor_work_handler (trigger_msgq : MsgQueue Nat) : MsgQueue Nat × Bool :=
  match k_msgq_put trigger_msgq TRIGGER_SYNTHETIC_SENSOR with
  | some tq => (tq, false)
  | none => (trigger_msgq, true)

/-- The four tasks of the program: the three created threads (main.c lines
416-432) and the main thread, which becomes the monitoring loop (main.c
lines 438-450). -/
inductive TaskId where
  | aggregator
  | producer
  | loadSpikeGenerator
  | mainMonitor
deriving DecidableEq, Fintype

/-- Which task writes the static global frame_counter (main.c line 82): only
the aggregator, at line 246. -/
def writes_frame_counter : TaskId → Bool
  | .aggregator => true
  | _ => false

/-- Which tasks read frame_counter: the aggregator (line 246) and the main
monitoring loop, which prints it in the status line at line 447. -/
def reads_frame_counter : TaskId → Bool
  | .aggregator => true
  | .mainMonitor => true
  | _ => false

/-- A task accesses frame_counter when it reads or writes it. -/
def accesses_frame_counter (t : TaskId) : Bool :=
  reads_frame_counter t || writes_frame_counter t

/-- Which tasks access avg_buffer: it is a local of
telemetry_aggregator_thread_func (main.c line 210), touched only at lines
241 and 268, so only the aggregator. -/
def accesses_avg_buffer : TaskId → Bool
  | .aggregator => true
  | _ => false

/-- Arbitrary stand-ins for the indeterminate initial values of the
uninitialized locals uptime_msg and sensor_msg (main.c lines 207-208). -/
def indet_uptime : UptimeData := { timestamp := -987654, uptime := 999 }

/-- Arbitrary indeterminate initial sensor_msg value. -/
def indet_sensor : SensorData := { timestamp := -987654, sensor_value := 999 }

/-- The spec's section 8 scenario: sensor samples at 0, 50, 100, 150 ms with
values 40, 42, 44, 46, one uptime sample at 0 ms with uptime 10, frame built
at 200 ms, previous cycle reference time 0. -/
def c7_input : CycleInput :=
  { wake_time := 200
    uptime_drained := [{ timestamp := 0, uptime := 10 }]
    sensor_drained :=
      [{ timestamp := 0, sensor_value := 40 }, { timestamp := 50, sensor_value := 42 },
       { timestamp := 100, sensor_value := 44 }, { timestamp := 150, sensor_value := 46 }]
    frame_time := 200
    avg_read_time := 200 }

/-- An indeterminate initial uptime_msg whose garbage timestamp happens to
look fresh at frame time 200. -/
def garbage_fresh : UptimeData := { timestamp := 195, uptime := 4242 }

/-- An indeterminate initial uptime_msg whose garbage timestamp looks
stale. -/
def garbage_stale : UptimeData := { timestamp := -999999, uptime := 4242 }

/-- A first cycle in which nothing was ever drained from the uptime queue
and a fresh sensor sample arrives. -/
def c10_input : CycleInput :=
  { wake_time := 200
    uptime_drained := []
    sensor_drained := [{ timestamp := 195, sensor_value := 50 }]
    frame_time := 200
    avg_read_time := 200 }

/-- A trivial cycle environment (no drains, all clocks at 0). -/
def cinp0 : CycleInput :=
  { wake_time := 0, uptime_drained := [], sensor_drained := [],
    frame_time := 0, avg_read_time := 0 }

/-- Buffer left by draining the section 8 scenario's four sensor samples. -/
def c4_buffer : SensorAvgBuffer :=
  c7_input.sensor_drained.foldl add_sensor_to_avg_buffer initial_avg_buffer

/-- A late first wake: reference time 0, wake only at 500 ms. -/
def c6_late_input : CycleInput :=
  { wake_time := 500, uptime_drained := [], sensor_drained := [],
    frame_time := 500, avg_read_time := 500 }

/-- The following on-time wake with fresh uptime and sensor data. -/
def c6_ontime_input : CycleInput :=
  { wake_time := 600
    uptime_drained := [{ timestamp := 600, uptime := 0 }]
    sensor_drained := [{ timestamp := 590, sensor_value := 50 }]
    frame_time := 600
    avg_read_time := 600 }

/-- A sensor queue filled to its capacity of 10. -/
def full_sensor_q : MsgQueue SensorData :=
  { msgs := List.replicate SENSOR_QUEUE_SIZE indet_sensor, max_msgs := SENSOR_QUEUE_SIZE }

/-- An uptime queue filled to its capacity of 2. -/
def full_uptime_q : MsgQueue UptimeData :=
  { msgs := List.replicate UPTIME_QUEUE_SIZE indet_uptime, max_msgs := UPTIME_QUEUE_SIZE }

/-- A trigger queue filled to its capacity of 12. -/
def full_trigger_q : MsgQueue Nat :=
  { msgs := List.replicate (SENSOR_QUEUE_SIZE + UPTIME_QUEUE_SIZE) TRIGGER_SYNTHETIC_SENSOR
    max_msgs := SENSOR_QUEUE_SIZE + UPTIME_QUEUE_SIZE }

/-- Both producer data queues full. -/
def full_producer_queues : ProducerQueues :=
  { sensor_msgq := full_sensor_q, uptime_msgq := full_uptime_q }

/-- Draining a queue with repeated overwriting of one local keeps the last
drained message, or the previous value when nothing was drained. -/
theorem foldl_keep_last {α : Type} (a : α) (l : List α) :
    l.foldl (fun _ m => m) a = l.getLastD a := by
  induction l generalizing a with
  | nil => rfl
  | cons x xs ih =>
    rw [List.foldl_cons, ih]
    cases xs with
    | nil => rfl
    | cons y ys => simp [List.getLastD]

/-- A uint32_t cast is the identity on values already in range. -/
theorem castU32_of_bounds {x : Int} (h0 : 0 ≤ x) (h1 : x < (U32_MOD : Int)) :
    (castU32 x : Int) = x := by
  unfold castU32
  rw [Int.emod_eq_of_lt h0 h1, Int.toNat_of_nonneg h0]

/-- The averaging loop computes the sum and the number of the in-window
slots among the first n. -/
theorem avgLoop_eq_filtered (buffer : SensorAvgBuffer) (c : Int) (n : Nat) :
    avgLoop buffer c n =
      ((((List.range n).filter (fun i => decide (buffer.timestamps.getD i 0 ≥ c))).map
          (fun i => buffer.sensor_values.getD i 0)).sum,
       (((List.range n).filter (fun i => decide (buffer.timestamps.getD i 0 ≥ c))).map
          (fun i => buffer.sensor_values.getD i 0)).length) := by
  induction n with
  | zero => simp [avgLoop]
  | succ n ih =>
    simp only [avgLoop, List.range_succ, List.filter_append, List.map_append,
      List.sum_append, List.length_append, ih]
    by_cases h : c ≤ buffer.timestamps[n]?.getD 0 <;> simp [h]

/-- Closed form of the frame_id of the frame at position n of a run: the
uint32 counter incremented n+1 times from its starting value. -/
theorem aggRun_frame_id (s0 : Int) (inputs : List CycleInput) :
    ∀ (st : AggState) (n : Nat), n < inputs.length →
      ((aggRun s0 st inputs).getD n default_frame).frame_id
        = (st.frame_counter + (n + 1)) % U32_MOD := by
  induction inputs with
  | nil => intro st n hn; simp at hn
  | cons i rest ih =>
    intro st n hn
    cases n with
    | zero =>
      simp [aggRun, aggStep]
    | succ n =>
      have hn' : n < rest.length := by simpa using hn
      simp only [aggRun, List.getD_cons_succ]
      rw [ih _ n hn']
      have hfc : (aggStep s0 st i).1.frame_counter = (st.frame_counter + 1) % U32_MOD := rfl
      rw [hfc, Nat.mod_add_mod]
      congr 1
      omega

/-- C1: a frame emitted by the aggregator step is degraded exactly when the
uptime staleness condition fired (the post-drain current uptime sample is
older than 2010 ms at frame time), or the sensor staleness condition fired
(no sample drained this cycle, or the last drained one older than 60 ms at
frame time), or the cycle's wake missed the 210 ms deadline tolerance; with
all inputs fresh and the deadline met, degraded is false. -/
theorem C1_degraded_iff (s0 : Int) (st : AggState) (inp : CycleInput) :
    ((aggStep s0 st inp).2.degraded = true) ↔
      (¬ (inp.frame_time - (aggStep s0 st inp).1.uptime_msg.timestamp ≤ 2 * UPTIME_RATE_MS + 10)
       ∨ (inp.sensor_drained = []
          ∨ ¬ (inp.frame_time - (aggStep s0 st inp).1.sensor_msg.timestamp
                ≤ SYNTHETIC_SENSOR_RATE_MS + 10))
       ∨ ¬ (inp.wake_time - st.last_frame_time ≤ TELEMETRY_FRAME_RATE_MS + 10)) := by
  simp only [aggStep, is_data_fresh]
  by_cases hu : inp.frame_time - (inp.uptime_drained.foldl (fun _ m => m) st.uptime_msg).timestamp ≤ 2 * UPTIME_RATE_MS + 10 <;>
  by_cases hv : inp.sensor_drained = [] <;>
  by_cases hs : inp.frame_time - (inp.sensor_drained.foldl (fun _ m => m) st.sensor_msg).timestamp ≤ SYNTHETIC_SENSOR_RATE_MS + 10 <;>
  by_cases hd : inp.wake_time - st.last_frame_time ≤ TELEMETRY_FRAME_RATE_MS + 10 <;>
  simp [hu, hv, hs, hd, List.isEmpty_iff, TELEMETRY_FRAME_RATE_MS] <;> omega

/-- C2: when a sensor sample was drained this cycle and the last drained
sample is at most 60 ms old at frame time, latest_sensor_value is that
sample's value; otherwise (stale last sample, or nothing drained)
latest_sensor_value is the sentinel -1 and the frame is degraded. -/
theorem C2_latest_sensor_value (s0 : Int) (st : AggState) (inp : CycleInput) :
    (∀ s : SensorData, inp.sensor_drained.getLast? = some s →
       ((inp.frame_time - s.timestamp ≤ SYNTHETIC_SENSOR_RATE_MS + 10 →
           (aggStep s0 st inp).2.latest_sensor_value = s.sensor_value)
        ∧ (¬ inp.frame_time - s.timestamp ≤ SYNTHETIC_SENSOR_RATE_MS + 10 →
           (aggStep s0 st inp).2.latest_sensor_value = -1
           ∧ (aggStep s0 st inp).2.degraded = true)))
    ∧ (inp.sensor_drained = [] →
       (aggStep s0 st inp).2.latest_sensor_value = -1
       ∧ (aggStep s0 st inp).2.degraded = true) := by
  constructor
  · intro s hs
    have hne : inp.sensor_drained ≠ [] := by
      intro h; rw [h] at hs; simp at hs
    have hlast : inp.sensor_drained.foldl (fun _ m => m) st.sensor_msg = s := by
      rw [foldl_keep_last, List.getLastD_eq_getLast?, hs]
      rfl
    constructor
    · intro hfresh
      simp [aggStep, is_data_fresh, hlast, List.isEmpty_iff, hne, hfresh]
    · intro hstale
      simp [aggStep, is_data_fresh, hlast, List.isEmpty_iff, hne, hstale]
  · intro hnil
    simp [aggStep, is_data_fresh, hnil]

/-- C3: when the current (most recently drained) uptime sample is at most
2010 ms old at frame time, the frame's uptime is that sample's uptime;
otherwise uptime falls back to (frame timestamp minus system start) / 1000
and the frame is degraded.  The two physical side conditions say the
monotonic clock is not before boot and the elapsed time fits uint32 seconds
(about 136 years), so the C cast loses nothing. -/
theorem C3_uptime_freshness (s0 : Int) (st : AggState) (inp : CycleInput)
    (hmono : s0 ≤ inp.frame_time)
    (hbound : inp.frame_time - s0 < 4294967296 * 1000) :
    (inp.frame_time - (aggStep s0 st inp).1.uptime_msg.timestamp ≤ 2 * UPTIME_RATE_MS + 10 →
       (aggStep s0 st inp).2.uptime = (aggStep s0 st inp).1.uptime_msg.uptime)
    ∧ (¬ inp.frame_time - (aggStep s0 st inp).1.uptime_msg.timestamp ≤ 2 * UPTIME_RATE_MS + 10 →
       ((aggStep s0 st inp).2.uptime : Int) = (inp.frame_time - s0).tdiv 1000
       ∧ (aggStep s0 st inp).2.degraded = true) := by
  have hu : (aggStep s0 st inp).1.uptime_msg
      = inp.uptime_drained.foldl (fun _ m => m) st.uptime_msg := rfl
  rw [hu]
  have hd0 : (0 : Int) ≤ inp.frame_time - s0 := by omega
  have hdiv0 : (0 : Int) ≤ (inp.frame_time - s0).tdiv 1000 :=
    Int.tdiv_nonneg hd0 (by norm_num)
  have heq : (inp.frame_time - s0).tdiv 1000 = (inp.frame_time - s0) / 1000 :=
    Int.tdiv_eq_ediv hd0 (by norm_num)
  have hdivlt : (inp.frame_time - s0).tdiv 1000 < (U32_MOD : Int) := by
    rw [heq]
    rw [Int.ediv_lt_iff_lt_mul (by norm_num)]
    unfold U32_MOD
    push_cast
    omega
  constructor
  · intro hfresh
    simp [aggStep, is_data_fresh, hfresh]
  · intro hstale
    refine ⟨?_, ?_⟩
    · have : (aggStep s0 st inp).2.uptime = castU32 ((inp.frame_time - s0).tdiv 1000) := by
        simp [aggStep, is_data_fresh, hstale]
      rw [this, castU32_of_bounds hdiv0 hdivlt]
    · simp [aggStep, is_data_fresh, hstale]

/-- C3 witness: the section 8 scenario at frame time 200 with start time 0
has a fresh uptime sample, so the frame's uptime is the sample's, 10. -/
theorem C3_uptime_freshness_witness :
    (aggStep 0 (initAggState indet_uptime indet_sensor 0) c7_input).2.uptime = 10 :=
  (C3_uptime_freshness 0 (initAggState indet_uptime indet_sensor 0) c7_input
    (by decide) (by decide)).1 (by decide)

/-- C4: the value calculate_sensor_avg_200ms returns is the truncated mean
of exactly the ring entries whose timestamp is at least the read time minus
200 ms; when at least one entry qualifies it lies in [0, 100] (the
qualifying stored values being in [0, 100], as every value the producer
publishes is), and when none qualifies it is exactly 0 no matter how many
stale entries the ring still stores. -/
theorem C4_windowed_average (now : Int) (buffer : SensorAvgBuffer)
    (hrange : ∀ v ∈ in_window_values now buffer, 0 ≤ v ∧ v ≤ 100) :
    ((calculate_sensor_avg_200ms now buffer : Int) = windowed_average_spec now buffer)
    ∧ (in_window_values now buffer ≠ [] → calculate_sensor_avg_200ms now buffer ≤ 100)
    ∧ (in_window_values now buffer = [] → calculate_sensor_avg_200ms now buffer = 0) := by
  have hfold := avgLoop_eq_filtered buffer (now - 200) buffer.count
  have hcalc : calculate_sensor_avg_200ms now buffer =
      (if (in_window_values now buffer).length > 0 then
        castU32 ((in_window_values now buffer).sum.tdiv
          ((in_window_values now buffer).length : Int))
       else 0) := by
    unfold calculate_sensor_avg_200ms in_window_values in_window_indices
    simp only [hfold]
  by_cases hempty : in_window_values now buffer = []
  · refine ⟨?_, fun h => absurd hempty h, fun _ => ?_⟩
    · rw [hcalc]
      unfold windowed_average_spec
      simp [hempty]
    · rw [hcalc]; simp [hempty]
  · have hlen : 0 < (in_window_values now buffer).length := List.length_pos.mpr hempty
    have hlenZ : (0 : Int) < ((in_window_values now buffer).length : Int) := by
      exact_mod_cast hlen
    have hsum0 : (0 : Int) ≤ (in_window_values now buffer).sum :=
      List.sum_nonneg (fun v hv => (hrange v hv).1)
    have hsum100 : (in_window_values now buffer).sum ≤
        ((in_window_values now buffer).length : Int) * 100 := by
      calc (in_window_values now buffer).sum
          ≤ (in_window_values now buffer).length • (100 : Int) :=
            List.sum_le_card_nsmul _ _ (fun v hv => (hrange v hv).2)
        _ = ((in_window_values now buffer).length : Int) * 100 := by
            simp [nsmul_eq_mul]
    have hdiv0 : (0 : Int) ≤ (in_window_values now buffer).sum.tdiv
        ((in_window_values now buffer).length : Int) :=
      Int.tdiv_nonneg hsum0 (le_of_lt hlenZ)
    have heq : (in_window_values now buffer).sum.tdiv
        ((in_window_values now buffer).length : Int) =
        (in_window_values now buffer).sum / ((in_window_values now buffer).length : Int) :=
      Int.tdiv_eq_ediv hsum0 (le_of_lt hlenZ)
    have hdiv100 : (in_window_values now buffer).sum.tdiv
        ((in_window_values now buffer).length : Int) ≤ 100 := by
      rw [heq]
      calc (in_window_values now buffer).sum / ((in_window_values now buffer).length : Int)
          ≤ (((in_window_values now buffer).length : Int) * 100) /
              ((in_window_values now buffer).length : Int) :=
            Int.ediv_le_ediv hlenZ hsum100
        _ = 100 := Int.mul_ediv_cancel_left _ (ne_of_gt hlenZ)
    have hdivlt : (in_window_values now buffer).sum.tdiv
        ((in_window_values now buffer).length : Int) < (U32_MOD : Int) := by
      have : ((U32_MOD : Nat) : Int) = 4294967296 := by norm_num [U32_MOD]
      omega
    have hcast := castU32_of_bounds hdiv0 hdivlt
    refine ⟨?_, fun _ => ?_, fun h => absurd h hempty⟩
    · rw [hcalc]
      unfold windowed_average_spec
      simp only [hlen, if_pos]
      rw [hcast]
    · rw [hcalc]
      simp only [hlen, if_pos]
      have : (castU32 ((in_window_values now buffer).sum.tdiv
          ((in_window_values now buffer).length : Int)) : Int) ≤ 100 := by
        rw [hcast]; exact hdiv100
      exact_mod_cast this

/-- C4 witness: the ring after the section 8 scenario's four inserts, read
at time 200, has four in-window entries all in [0, 100], so the average is
at most 100. -/
theorem C4_windowed_average_witness :
    calculate_sensor_avg_200ms 200 c4_buffer ≤ 100 :=
  (C4_windowed_average 200 c4_buffer (by decide)).2.1 (by decide)

/-- C5 counterexample: frame_counter is a uint32_t, so over a run of 2^32
cycles it wraps: the 4294967295-th emitted frame (position 4294967294) has
frame_id 4294967295, and the 4294967296-th (position 4294967295) has
frame_id 0, not 4294967296 — the ids repeat from there, refuting strict
increase with no repeats across an unbounded run. -/
theorem C5_frame_id_counterexample :
    ((aggRun 0 (initAggState indet_uptime indet_sensor 0)
        (List.replicate 4294967296 cinp0)).getD 4294967295 default_frame).frame_id = 0
    ∧ ((aggRun 0 (initAggState indet_uptime indet_sensor 0)
        (List.replicate 4294967296 cinp0)).getD 4294967294 default_frame).frame_id
      = 4294967295 := by
  have hlen : (4294967295 : Nat) < (List.replicate 4294967296 cinp0).length := by
    rw [List.length_replicate]; omega
  have hlen2 : (4294967294 : Nat) < (List.replicate 4294967296 cinp0).length := by
    rw [List.length_replicate]; omega
  constructor
  · rw [aggRun_frame_id 0 (List.replicate 4294967296 cinp0)
      (initAggState indet_uptime indet_sensor 0) 4294967295 hlen]
    rfl
  · rw [aggRun_frame_id 0 (List.replicate 4294967296 cinp0)
      (initAggState indet_uptime indet_sensor 0) 4294967294 hlen2]
    rfl

/-- C5 amended: frame_id starts at 1 and increments by exactly 1 per cycle
modulo 2^32: for every n with n + 1 < 2^32 the frame at position n of a run
from the initial state carries frame_id n + 1 (no gaps, no repeats within
the first 2^32 - 1 frames); at the 2^32-th frame the uint32 counter wraps
to 0. -/
theorem C5_frame_id_amended (s0 boot : Int) (u : UptimeData) (s : SensorData)
    (inputs : List CycleInput) (n : Nat)
    (h1 : n < inputs.length) (h2 : n + 1 < U32_MOD) :
    ((aggRun s0 (initAggState u s boot) inputs).getD n default_frame).frame_id = n + 1 := by
  rw [aggRun_frame_id s0 inputs (initAggState u s boot) n h1]
  have h0 : (initAggState u s boot).frame_counter = 0 := rfl
  rw [h0, Nat.zero_add]
  exact Nat.mod_eq_of_lt h2

/-- C5 witness: in a three-cycle run the frame at position 2 has
frame_id 3. -/
theorem C5_frame_id_witness :
    ((aggRun 0 (initAggState indet_uptime indet_sensor 0)
        [cinp0, cinp0, cinp0]).getD 2 default_frame).frame_id = 3 :=
  C5_frame_id_amended 0 0 indet_uptime indet_sensor [cinp0, cinp0, cinp0] 2
    (by decide) (by decide)

/-- C6: a wake later than 210 ms after the previous cycle's reference time
makes that frame degraded; the next cycle, waking within 210 ms of the late
frame's timestamp with a freshly drained sensor sample and a fresh current
uptime sample, emits degraded = false again — the miss affects only the one
frame. -/
theorem C6_deadline_recovery (s0 : Int) (st : AggState) (i1 i2 : CycleInput)
    (hlate : i1.wake_time - st.last_frame_time > TELEMETRY_FRAME_RATE_MS + 10)
    (hontime : i2.wake_time - i1.frame_time ≤ TELEMETRY_FRAME_RATE_MS + 10)
    (hufresh : i2.frame_time - (aggStep s0 (aggStep s0 st i1).1 i2).1.uptime_msg.timestamp
        ≤ 2 * UPTIME_RATE_MS + 10)
    (hsne : i2.sensor_drained ≠ [])
    (hsfresh : i2.frame_time - (aggStep s0 (aggStep s0 st i1).1 i2).1.sensor_msg.timestamp
        ≤ SYNTHETIC_SENSOR_RATE_MS + 10) :
    (aggStep s0 st i1).2.degraded = true
    ∧ (aggStep s0 (aggStep s0 st i1).1 i2).2.degraded = false := by
  have key : ∀ st1 : AggState, st1.last_frame_time = i1.frame_time →
      i2.frame_time - (i2.uptime_drained.foldl (fun _ m => m) st1.uptime_msg).timestamp
        ≤ 2 * UPTIME_RATE_MS + 10 →
      i2.frame_time - (i2.sensor_drained.foldl (fun _ m => m) st1.sensor_msg).timestamp
        ≤ SYNTHETIC_SENSOR_RATE_MS + 10 →
      (aggStep s0 st1 i2).2.degraded = false := by
    intro st1 h1 h2 h3
    have h4 : ¬ (i2.wake_time - st1.last_frame_time > TELEMETRY_FRAME_RATE_MS + 10) := by
      rw [h1]; exact not_lt.mpr hontime
    simp [aggStep, is_data_fresh, h2, h3, h4, List.isEmpty_iff, hsne]
  refine ⟨?_, ?_⟩
  · simp [aggStep, is_data_fresh, hlate]
  · exact key (aggStep s0 st i1).1 rfl hufresh hsfresh

/-- C6 witness: reference time 0, a wake at 500 ms (289 ms over), then a
wake at 600 ms with fresh samples: the first frame is degraded, the second
is not. -/
theorem C6_deadline_recovery_witness :
    (aggStep 0 (initAggState indet_uptime indet_sensor 0) c6_late_input).2.degraded = true
    ∧ (aggStep 0 (aggStep 0 (initAggState indet_uptime indet_sensor 0) c6_late_input).1
        c6_ontime_input).2.degraded = false :=
  C6_deadline_recovery 0 (initAggState indet_uptime indet_sensor 0)
    c6_late_input c6_ontime_input (by decide) (by decide) (by decide) (by decide) (by decide)

/-- C7: on the spec's section 8 scenario — sensor samples at 0, 50, 100 and
150 ms with values 40, 42, 44 and 46, an uptime sample at 0 ms with uptime
10, frame built at 200 ms after a reference time of 0 — the emitted frame is
frame 1 with latest_sensor_value 46, windowed average 43, uptime 10 and
degraded false. -/
theorem C7_scenario_frame :
    (aggStep 0 (initAggState indet_uptime indet_sensor 0) c7_input).2 =
      { frame_id := 1, timestamp := 200, uptime := 10, latest_sensor_value := 46,
        sensor_avg_last_200ms := 43, degraded := false } := by
  decide

/-- C8: a publish attempt against a full queue leaves the queue exactly as
it was (the sample is dropped, with no retry: the one put is the whole
publish path) and records a warning; this holds for the producer's sensor
and uptime publishes and for the trigger enqueue of the sensor work
handler.  Every publish is a total non-blocking K_NO_WAIT put, so a full
queue never blocks or halts the pipeline. -/
theorem C8_queue_full_drop (s0 now : Int) (sensor_msg : SensorData)
    (q : ProducerQueues) (tq : MsgQueue Nat)
    (hs : q.sensor_msgq.msgs.length ≥ q.sensor_msgq.max_msgs)
    (hu : q.uptime_msgq.msgs.length ≥ q.uptime_msgq.max_msgs)
    (ht : tq.msgs.length ≥ tq.max_msgs) :
    producer_handle s0 now sensor_msg TRIGGER_SYNTHETIC_SENSOR q = (q, true)
    ∧ producer_handle s0 now sensor_msg TRIGGER_UPTIME q = (q, true)
    ∧ synthetic_sensor_work_handler tq = (tq, true) := by
  refine ⟨?_, ?_, ?_⟩
  · simp [producer_handle, k_msgq_put, TRIGGER_SYNTHETIC_SENSOR, TRIGGER_UPTIME,
      Nat.not_lt.mpr hs]
  · simp [producer_handle, k_msgq_put, TRIGGER_SYNTHETIC_SENSOR, TRIGGER_UPTIME,
      Nat.not_lt.mpr hu]
  · simp [synthetic_sensor_work_handler, k_msgq_put, Nat.not_lt.mpr ht]

/-- C8 witness: with the sensor queue at its capacity of 10, the uptime
queue at 2 and the trigger queue at 12, each publish drops the sample,
leaves the queue unchanged and warns. -/
theorem C8_queue_full_drop_witness :
    producer_handle 0 0 indet_sensor TRIGGER_SYNTHETIC_SENSOR full_producer_queues
      = (full_producer_queues, true)
    ∧ producer_handle 0 0 indet_sensor TRIGGER_UPTIME full_producer_queues
      = (full_producer_queues, true)
    ∧ synthetic_sensor_work_handler full_trigger_q = (full_trigger_q, true) :=
  C8_queue_full_drop 0 0 indet_sensor full_producer_queues full_trigger_q
    (by decide) (by decide) (by decide)

/-- C9 counterexample: the main monitoring loop, a task other than the
aggregator, reads frame_counter (the status line of main.c line 447), so
frame_counter is not accessed exclusively by the aggregator. -/
theorem C9_ownership_counterexample :
    accesses_frame_counter TaskId.mainMonitor = true
    ∧ TaskId.mainMonitor ≠ TaskId.aggregator := by decide

/-- C9 amended: the average window buffer is accessed only by the
aggregator, and frame_counter is written only by the aggregator; but
frame_counter is additionally read by the main monitoring loop's periodic
status line. -/
theorem C9_ownership_amended :
    (∀ t : TaskId, accesses_avg_buffer t = true → t = TaskId.aggregator)
    ∧ (∀ t : TaskId, writes_frame_counter t = true → t = TaskId.aggregator)
    ∧ reads_frame_counter TaskId.mainMonitor = true
    ∧ TaskId.mainMonitor ≠ TaskId.aggregator := by decide

/-- C10: on a cycle before any uptime sample was ever drained, the freshness
check runs on the indeterminate initial value of the uninitialized local
uptime_msg: with the same start time and the same cycle input, one garbage
value yields uptime 4242 (its own garbage payload, not the fallback 0 =
(200 - 0) / 1000) with degraded false, while another yields the fallback 0
with degraded true — the frame is determined by the indeterminate value, and
the fallback is not guaranteed. -/
theorem C10_uninitialized_uptime :
    (aggStep 0 (initAggState garbage_fresh indet_sensor 0) c10_input).2.uptime = 4242
    ∧ (aggStep 0 (initAggState garbage_fresh indet_sensor 0) c10_input).2.degraded = false
    ∧ (aggStep 0 (initAggState garbage_stale indet_sensor 0) c10_input).2.uptime = 0
    ∧ (aggStep 0 (initAggState garbage_stale indet_sensor 0) c10_input).2.degraded = true := by
  decide
